import Mathlib

/-!
Verification development for the blair URL-to-social-post generation pipeline.

The embedding below is translated from the repository sources:
- `src/db/schemas/training-post.ts`, `src/db/schemas/generate-post.ts` (tables,
  enums, declared unique constraints),
- `src/app/api/posts/generate/route.ts` (both the plain and the streaming
  handler: request validation, default tone profile, scrape/analyze/search/
  generate/persist control flow, progress chunks, error handlers),
- `src/lib/types/streaming.ts` (progress stages, chunk shapes),
- `src/lib/schemas/post.ts` (zod schemas used by the handlers).

External calls (scrape capability, structured analysis, SQL search, token
stream, database insert) are modelled as oracles supplied in an environment;
the handler logic that consumes them is embedded faithfully, one Lean
definition per stage continuation, preserving the order in which chunks are
written to the stream.
-/

namespace Blair

/-! ## Enumerations (from `src/db/schemas/training-post.ts`) -/

inductive Tone
  | witty | professional | inspirational | casual | direct | empathetic
deriving DecidableEq, Repr

inductive Platform
  | twitter | instagram | facebook | linkedin
deriving DecidableEq, Repr

inductive ContentType
  | self_help | tech_tutorial | news_article | product_review
  | thought_leadership | entertainment | other
deriving DecidableEq, Repr

inductive TargetAudience
  | developers | marketers | entrepreneurs | students | parents
  | general_public | creatives | finance_professionals | other
deriving DecidableEq, Repr

inductive LinkOwnership
  | own_content | third_party_content
deriving DecidableEq, Repr

inductive CtaType
  | learn_more | sign_up | buy_now | read_article | watch_video
  | download | join_community | poll_question | other
deriving DecidableEq, Repr

/-- One entry of a tone profile: `{ tone, weight }` with weight 0..100
(jsonb column `tone_profile`). -/
structure ToneWeight where
  tone : Tone
  weight : Nat
deriving DecidableEq, Repr

/-! ## Tone similarity scoring

Embeds the correlated scalar subquery of `toneSimilaritySql`
(`src/app/api/posts/generate/route.ts`, streaming handler):

  SELECT SUM(CASE WHEN ABS((tone_elem->>'weight')::int - ut.weight) <= 10
             THEN 1 ELSE 0 END)
  FROM jsonb_array_elements(tp.tone_profile) AS tone_elem
  JOIN jsonb_array_elements(query_profile) AS ut(tone, weight)
  ON tone_elem->>'tone' = ut.tone

The join pairs each element of the row profile with each element of the
query profile that carries the same tone name; the sum awards one point per
pair whose weights differ by at most the threshold (10 in the source). -/

/-- All pairs (row element, query element) with equal tone names — the rows of
the SQL join. -/
def tonePairs (rowProfile userProfile : List ToneWeight) : List (ToneWeight × ToneWeight) :=
  rowProfile.flatMap fun te =>
    (userProfile.filter fun ut => ut.tone == te.tone).map fun ut => (te, ut)

/-- The summed CASE expression, with the tolerance threshold as a parameter
(the source hard-codes 10). -/
def toneMatchScore (threshold : Nat) (rowProfile userProfile : List ToneWeight) : Nat :=
  ((tonePairs rowProfile userProfile).map fun p =>
    if ((p.1.weight : Int) - (p.2.weight : Int)).natAbs ≤ threshold then 1 else 0).sum

/-- `ORDER BY tone_match_score DESC LIMIT 3` of `toneSimilaritySql`, as a
ranking over in-memory rows (insertion sort, descending score, threshold 10).
This models the intended relational semantics of the query; whether the SQL
text itself is executable is settled separately. -/
def insertByScoreDesc (userProfile : List ToneWeight) (r : List ToneWeight × String) :
    List (List ToneWeight × String) → List (List ToneWeight × String)
  | [] => [r]
  | x :: xs =>
    if toneMatchScore 10 x.1 userProfile < toneMatchScore 10 r.1 userProfile then
      r :: x :: xs
    else
      x :: insertByScoreDesc userProfile r xs

def rankByToneScore (userProfile : List ToneWeight)
    (rows : List (List ToneWeight × String)) : List (List ToneWeight × String) :=
  (rows.foldr (insertByScoreDesc userProfile) []).take 3

/-! ## Streaming protocol data (from `src/lib/types/streaming.ts`) -/

/-- `'loading' | 'success' | 'error'` of a progress data part. -/
inductive Status
  | loading | success | error
deriving DecidableEq, Repr

/-- `PROGRESS_STAGES`: scraping, analyzing, searching, generating, saving. -/
inductive Stage
  | scraping | analyzing | searching | generating | saving
deriving DecidableEq, Repr

/-- Notification levels `'info' | 'warning' | 'error' | 'success'`. -/
inductive Level
  | info | warning | error | success
deriving DecidableEq, Repr

/-- The record produced by `generateObject` against
`scrapedContentAnalysisSchema` (`src/lib/schemas/post.ts`): summary, category,
audience, tone distribution, optional call-to-action, pitch strength. -/
structure AnalysisResult where
  content_summary : String
  content_type : ContentType
  target_audience : TargetAudience
  tone_profile : List ToneWeight
  call_to_action_type : Option CtaType
  sales_pitch_strength : Nat
deriving DecidableEq, Repr

/-- The shape the streaming handler projects a corpus row to before sending
it (`examplePosts = results.rows.map(...)`). -/
structure ExamplePost where
  content : String
  platform : Platform
  content_type : ContentType
deriving DecidableEq, Repr

/-- One message written to the UI message stream: progress data, a
notification, the content-analysis record, the retrieved training posts, or
the final generated post (the `data-*` parts of `StreamingDataMap`). -/
inductive Chunk
  | progress (stage : Stage) (message : String) (status : Status) (details : Option String)
  | notification (message : String) (level : Level)
  | contentAnalysis (a : AnalysisResult)
  | trainingPosts (count : Nat) (examples : List ExamplePost)
  | generatedPost (content : String) (platform : Platform)
deriving DecidableEq, Repr

/-! ## Rows and request data -/

/-- A `training_posts` row, restricted to the columns the handlers read
(`src/db/schemas/training-post.ts`; embeddings are never read by the
pipeline). `created_at` is the `lifecycle_dates` timestamp as a number. -/
structure TrainRow where
  post_content : String
  platform : Platform
  content_type : ContentType
  original_url : String
  content_summary : String
  call_to_action_type : CtaType
  sales_pitch_strength : Nat
  tone_profile : List ToneWeight
  link_ownership_type : LinkOwnership
  target_audience : TargetAudience
  user_id : String
  created_at : Nat
deriving DecidableEq, Repr

/-- The validated generate request as the route handlers read it
(`generatePostSchema = postFormSchema.omit({post_content, content_summary})`).
`platform`, `original_url`, `link_ownership_type` and `tone_profile` are
required by every version of `postFormSchema`; the handlers additionally read
`content_type`, `target_audience`, `call_to_action_type` and
`sales_pitch_strength` guarded by presence checks, so those are optional
here. -/
structure Submission where
  platform : Platform
  original_url : String
  link_ownership_type : LinkOwnership
  tone_profile : List ToneWeight
  content_type : Option ContentType
  target_audience : Option TargetAudience
  call_to_action_type : Option CtaType
  sales_pitch_strength : Option Nat
deriving DecidableEq, Repr

/-- The `generate_posts` insert shape built by the streaming handler
(`insertData`, `src/app/api/posts/generate/route.ts`). -/
structure GenerateRow where
  original_url : String
  post_content : String
  platform : Platform
  content_type : ContentType
  content_summary : String
  target_audience : TargetAudience
  link_ownership_type : LinkOwnership
  user_id : String
deriving DecidableEq, Repr

/-- The narrowed database error the persist handler inspects:
`(error as { code?: string; message?: string })`. -/
structure DbErr where
  code : Option String
  message : Option String
deriving DecidableEq, Repr

/-- `dbError?.code === '23505' || dbError?.message?.includes('unique constraint')`. -/
def leadsList : List Char → List Char → Bool
  | [], _ => true
  | _ :: _, [] => false
  | a :: as, b :: bs => a == b && leadsList as bs

def containsSub (hay needle : String) : Bool :=
  (List.range (hay.data.length + 1)).any fun i => leadsList needle.data (hay.data.drop i)

def isUniqueViolation (e : DbErr) : Bool :=
  e.code == some "23505" ||
    ((e.message.map fun m => containsSub m "unique constraint").getD false)

/-! ## Scrape result and content slicing -/

/-- `firecrawl.scrape(url, {formats:['markdown','html'],...}) -> {markdown?, html?}`. -/
structure ScrapeResult where
  markdown : Option String
  html : Option String
deriving DecidableEq, Repr

/-- `const content = scrapedContent.markdown ?? scrapedContent.html ?? ''`. -/
def contentOf (s : ScrapeResult) : String :=
  s.markdown.getD (s.html.getD "")

/-- `content.slice(0, n)` — the first `n` units of the string. -/
def jsSlice (s : String) (n : Nat) : String :=
  ⟨s.data.take n⟩

/-! ## Prompt assembly (string renderings of the template literals) -/

def Tone.str : Tone → String
  | .witty => "witty" | .professional => "professional"
  | .inspirational => "inspirational" | .casual => "casual"
  | .direct => "direct" | .empathetic => "empathetic"

def Platform.str : Platform → String
  | .twitter => "twitter" | .instagram => "instagram"
  | .facebook => "facebook" | .linkedin => "linkedin"

def ContentType.str : ContentType → String
  | .self_help => "self_help" | .tech_tutorial => "tech_tutorial"
  | .news_article => "news_article" | .product_review => "product_review"
  | .thought_leadership => "thought_leadership" | .entertainment => "entertainment"
  | .other => "other"

def TargetAudience.str : TargetAudience → String
  | .developers => "developers" | .marketers => "marketers"
  | .entrepreneurs => "entrepreneurs" | .students => "students"
  | .parents => "parents" | .general_public => "general_public"
  | .creatives => "creatives" | .finance_professionals => "finance_professionals"
  | .other => "other"

def LinkOwnership.str : LinkOwnership → String
  | .own_content => "own_content" | .third_party_content => "third_party_content"

def CtaType.str : CtaType → String
  | .learn_more => "learn_more" | .sign_up => "sign_up" | .buy_now => "buy_now"
  | .read_article => "read_article" | .watch_video => "watch_video"
  | .download => "download" | .join_community => "join_community"
  | .poll_question => "poll_question" | .other => "other"

/-- `JSON.stringify(toneProfile)`. -/
def toneProfileJson (tp : List ToneWeight) : String :=
  "[" ++ String.intercalate ","
    (tp.map fun t =>
      "\x7b\"tone\":\"" ++ t.tone.str ++ "\",\"weight\":" ++ toString t.weight ++ "\x7d")
    ++ "]"

/-- The analysis prompt of the streaming handler, a function of the sliced
content only. -/
def analyzePrompt (sliced : String) : String :=
  "Analyze the following scraped content and provide the analysis in the exact format specified by the schema. Return only the object data that matches the schema properties:\n\n"
    ++ sliced ++
    "\n\nReturn an object with these exact fields:\n- content_summary: string (summary of the content)\n- content_type: one of the enum values\n- target_audience: one of the enum values\n- tone_profile: array of tone objects with tone and weight\n- call_to_action_type: one of the enum values\n- sales_pitch_strength: number 0-100"

/-- The generation prompt of the streaming handler: request fields, analysis
fields and the retrieved example posts (never the raw scraped content). -/
def genPrompt (sub : Submission) (a : AnalysisResult) (examplePosts : List ExamplePost) : String :=
  "Generate a social media post for the following link. Don\x27t use redundant emojis.\n\nURL: "
    ++ sub.original_url
    ++ "\nPlatform: " ++ sub.platform.str
    ++ "\nLink Ownership: " ++ sub.link_ownership_type.str
    ++ "\n\nContent Analysis:\n- Summary: " ++ a.content_summary
    ++ "\n- Content Type: " ++ a.content_type.str
    ++ "\n- Target Audience: " ++ a.target_audience.str
    ++ "\n\nUser Preferences:\n- Tone Profile: " ++ toneProfileJson sub.tone_profile
    ++ "\n- Call to Action: "
    ++ (match sub.call_to_action_type with | some c => c.str | none => "any")
    ++ "\n- Sales Pitch Strength: "
    ++ (match sub.sales_pitch_strength with
        | some s => toString ((s + 5) / 10)
        | none => "medium")
    ++ "/10\n\n"
    ++ (if examplePosts.length > 0 then
          "\nExample Posts:\n" ++ String.intercalate "\n"
            (examplePosts.enum.map fun p =>
              "\nExample " ++ toString (p.1 + 1) ++ ":\nContent: " ++ p.2.content
                ++ "\nPlatform: " ++ p.2.platform.str
                ++ "\nContent Type: " ++ p.2.content_type.str)
            ++ "\n"
        else "No example posts found.")
    ++ "\n\nGenerate an engaging social media post that promotes this link effectively. Make sure the tone matches the user\x27s preferences and follows best practices for the specified platform."

/-! ## The similarity search query description

The streaming handler builds `toneSimilaritySql` from the analysis tone
profile (`analysis.tone_profile ?? submissionData.tone_profile`; the schema
makes the analysis profile mandatory) and appends one equality filter per
present categorical field. -/

structure SearchQuery where
  tone_profile_json : String
  platform : Option Platform
  content_type : Option ContentType
  target_audience : Option TargetAudience
  call_to_action_type : Option CtaType
deriving DecidableEq, Repr

def buildSearchQuery (sub : Submission) (a : AnalysisResult) : SearchQuery :=
  { tone_profile_json := toneProfileJson a.tone_profile
    -- if (submissionData.platform) — platform is required, hence always truthy
    platform := some sub.platform
    -- if (submissionData.content_type || analysis.content_type), value `??`
    content_type := some (sub.content_type.getD a.content_type)
    -- if (submissionData.target_audience || analysis.target_audience)
    target_audience := some (sub.target_audience.getD a.target_audience)
    -- if (submissionData.call_to_action_type)
    call_to_action_type := sub.call_to_action_type }

/-! ## The environment of one run: oracles for the external calls -/

/-- Behaviours of the external collaborators during one run. `scrape` either
throws or returns content; `analyze` maps the prompt it is given to a thrown
error, a missing object, or an analysis record; `search` maps the built query
to a thrown error or a row list; `gen` maps the generation prompt to the
delivered token deltas plus an optional exception thrown after them. -/
structure Env where
  scrape : Except String ScrapeResult
  analyze : String → Except String (Option AnalysisResult)
  search : SearchQuery → Except String (List TrainRow)
  gen : String → List String × Option String
deriving Inhabited

/-- The database insert as a function of the current table contents: either
the new table contents or a thrown error. -/
def DbInsert : Type :=
  List GenerateRow → GenerateRow → Except DbErr (List GenerateRow)

/-! ## Chunk groups written by the handler -/

/-- Written by the outer `catch` — note the stage is always `saving`. -/
def outerCatchChunks : List Chunk :=
  [.progress .saving "An error occurred during generation" .error none,
   .notification "Internal server error occurred" .error]

/-- Written when `!analysis || !analysis.content_summary`. -/
def analyzeFailChunks : List Chunk :=
  [.progress .analyzing "Failed to analyze website content" .error none,
   .notification "Failed to analyze website content" .error]

/-- Written when the collected generation text is empty. -/
def genFailChunks : List Chunk :=
  [.progress .generating "Failed to generate post content" .error none,
   .notification "Failed to generate post content" .error]

/-- Written when the insert fails with a unique-constraint violation. -/
def conflictChunks : List Chunk :=
  [.progress .saving "URL already exists for this user" .error none,
   .notification "You have already added this URL" .error]

/-- The two chunks written before the scrape call. -/
def initChunks (sub : Submission) : List Chunk :=
  [.progress .scraping "Starting post generation..." .loading none,
   .progress .scraping "Scraping website content..." .loading (some sub.original_url)]

/-- The token collection loop: append each delta and write an incremental
generating chunk whenever the accumulated length is a multiple of 50. -/
def genLoop : List String → String → List Chunk × String
  | [], acc => ([], acc)
  | d :: ds, acc =>
    let acc2 := acc ++ d
    let emitted : List Chunk :=
      if acc2.length % 50 == 0 then
        [.progress .generating
          ("Generating post content... (" ++ toString acc2.length ++ " characters)")
          .loading none]
      else []
    let rest := genLoop ds acc2
    (emitted ++ rest.1, rest.2)

/-- `insertData` of the streaming handler. -/
def insertDataOf (sub : Submission) (a : AnalysisResult) (text userId : String) : GenerateRow :=
  { original_url := sub.original_url
    post_content := text
    platform := sub.platform
    content_type := sub.content_type.getD a.content_type
    content_summary := a.content_summary
    target_audience := sub.target_audience.getD a.target_audience
    link_ownership_type := sub.link_ownership_type
    user_id := userId }

def toExample (r : TrainRow) : ExamplePost :=
  { content := r.post_content, platform := r.platform, content_type := r.content_type }

/-! ## The streaming handler, stage by stage

Each `after*` definition consumes the result of one external call and
produces the chunks written from that point on together with the resulting
`generate_posts` table contents. -/

/-- Persist step: `db.insert(generate_posts).values(insertData)` with the
unique-violation handler; any other error is re-thrown into the outer catch. -/
def afterInsert (sub : Submission) (tbl : List GenerateRow) (text : String) :
    Except DbErr (List GenerateRow) → List Chunk × List GenerateRow
  | .ok tbl2 =>
    ([.progress .saving "Post saved successfully" .success none,
      .generatedPost text sub.platform,
      .notification "Post generation completed successfully!" .success], tbl2)
  | .error e =>
    if isUniqueViolation e then (conflictChunks, tbl)
    else (outerCatchChunks, tbl)

/-- Generation step: collect the stream; an exception reaches the outer
catch, empty output is a generating-stage failure, otherwise persist. -/
def afterGen (sub : Submission) (userId : String) (dbi : DbInsert)
    (tbl : List GenerateRow) (a : AnalysisResult) :
    List String × Option String → List Chunk × List GenerateRow
  | (deltas, merr) =>
    let loop := genLoop deltas ""
    match merr with
    | some _ => (loop.1 ++ outerCatchChunks, tbl)
    | none =>
      if loop.2 = "" then (loop.1 ++ genFailChunks, tbl)
      else
        let next := afterInsert sub tbl loop.2 (dbi tbl (insertDataOf sub a loop.2 userId))
        (loop.1 ++
          [.progress .generating "Post content generated successfully" .success none,
           .progress .saving "Saving post to database..." .loading none] ++ next.1,
         next.2)

/-- Search step: a thrown query reaches the outer catch; otherwise report the
rows and start generating. -/
def afterSearch (sub : Submission) (userId : String)
    (gen : String → List String × Option String) (dbi : DbInsert)
    (tbl : List GenerateRow) (a : AnalysisResult) :
    Except String (List TrainRow) → List Chunk × List GenerateRow
  | .error _ => (outerCatchChunks, tbl)
  | .ok rows =>
    let examplePosts := rows.map toExample
    let next := afterGen sub userId dbi tbl a (gen (genPrompt sub a examplePosts))
    ([.progress .searching
        ("Found " ++ toString rows.length ++ " tone-similar posts") .success none,
      .trainingPosts rows.length examplePosts,
      .progress .generating "Generating post content..." .loading none] ++ next.1,
     next.2)

/-- Analysis step: `!analysis || !analysis.content_summary` is an
analyzing-stage failure; a thrown call reaches the outer catch. -/
def afterAnalysis (sub : Submission) (userId : String)
    (search : SearchQuery → Except String (List TrainRow))
    (gen : String → List String × Option String) (dbi : DbInsert)
    (tbl : List GenerateRow) :
    Except String (Option AnalysisResult) → List Chunk × List GenerateRow
  | .error _ => (outerCatchChunks, tbl)
  | .ok none => (analyzeFailChunks, tbl)
  | .ok (some a) =>
    if a.content_summary = "" then (analyzeFailChunks, tbl)
    else
      let next := afterSearch sub userId gen dbi tbl a (search (buildSearchQuery sub a))
      ([.progress .analyzing "Content analysis completed" .success none,
        .contentAnalysis a,
        .progress .searching "Searching for tone-similar posts..." .loading none] ++ next.1,
       next.2)

/-- Scrape step: the content — markdown, falling back to html, falling back
to the empty string — is sliced to 100000 units and handed to the analyzer;
there is no emptiness check. A thrown scrape reaches the outer catch. -/
def afterScrape (sub : Submission) (userId : String) (env : Env) (dbi : DbInsert)
    (tbl : List GenerateRow) :
    Except String ScrapeResult → List Chunk × List GenerateRow
  | .error _ => (outerCatchChunks, tbl)
  | .ok s =>
    let next := afterAnalysis sub userId env.search env.gen dbi tbl
      (env.analyze (analyzePrompt (jsSlice (contentOf s) 100000)))
    (Chunk.progress .analyzing "Analyzing scraped content..." .loading none :: next.1,
     next.2)

/-- The full streaming `execute` body: the initial progress chunks, then the
stage chain; returns the written chunks in order and the final table. -/
def executeStreaming (sub : Submission) (userId : String) (env : Env) (dbi : DbInsert)
    (tbl : List GenerateRow) : List Chunk × List GenerateRow :=
  let next := afterScrape sub userId env dbi tbl env.scrape
  (initChunks sub ++ next.1, next.2)

/-! ## The storage layer

An insert succeeds unless it violates a unique constraint *declared on the
table*; a violation raises the Postgres error code 23505. The declared
constraints are taken from the drizzle schema files. -/

def violatesUnique (uniques : List (α → α → Bool)) (tbl : List α) (r : α) : Bool :=
  uniques.any fun u => tbl.any fun r0 => u r0 r

def uniqueViolationError : DbErr :=
  { code := some "23505",
    message := some "duplicate key value violates unique constraint" }

def pgInsert (uniques : List (α → α → Bool)) (tbl : List α) (r : α) :
    Except DbErr (List α) :=
  if violatesUnique uniques tbl r then .error uniqueViolationError
  else .ok (tbl ++ [r])

/-- Unique constraints declared on `generate_posts`
(`src/db/schemas/generate-post.ts`): the `pgTable` call declares none — in
particular none over `(user_id, original_url)`. -/
def generatePostsUniques : List (GenerateRow → GenerateRow → Bool) := []

/-- Unique constraints declared on `training_posts`
(`src/db/schemas/training-post.ts`): `unique().on(table.user_id,
table.original_url)`. -/
def trainingPostsUniques : List (TrainRow → TrainRow → Bool) :=
  [fun r0 r => r0.user_id == r.user_id && r0.original_url == r.original_url]

/-- The database insert used by the streaming handler: a Postgres insert into
`generate_posts` under its declared constraints. -/
def generatePostsInsert : DbInsert :=
  pgInsert generatePostsUniques

/-! ## The non-streaming retrieval ladder

From the plain (non-streaming) POST handler: exact-match filters over all
supplied fields, then — on zero rows — a relaxed priority filter keeping only
platform and content type, then — still on zero rows — the five most recently
created corpus rows. -/

/-- `exactMatchClauses` as built by the handler. `platform` and
`link_ownership_type` are required fields, so their truthiness guards always
pass; the inferred content type and audience come from the (schema-mandatory)
analysis fields, so those guards always pass too; the call-to-action guard
needs a supplied value; the pitch guard needs a supplied non-zero value
(`if (submissionData.sales_pitch_strength)` — 0 is falsy). -/
def exactMatchClauses (sub : Submission) (a : AnalysisResult) : List (TrainRow → Bool) :=
  let base : List (TrainRow → Bool) :=
    [fun r => r.platform == sub.platform,
     fun r => r.content_type == sub.content_type.getD a.content_type,
     fun r => r.link_ownership_type == sub.link_ownership_type,
     fun r => r.target_audience == sub.target_audience.getD a.target_audience]
  let ctaClause : List (TrainRow → Bool) :=
    match sub.call_to_action_type with
    | some c => [fun r => r.call_to_action_type == c]
    | none => []
  let pitchClause : List (TrainRow → Bool) :=
    match sub.sales_pitch_strength with
    | some s =>
      if s ≠ 0 then
        -- minStrength = Math.max(1, s - 2), maxStrength = Math.min(10, s + 2)
        [fun r => decide (max 1 ((s : Int) - 2) ≤ (r.sales_pitch_strength : Int) ∧
                          (r.sales_pitch_strength : Int) ≤ min 10 ((s : Int) + 2))]
      else []
    | none => []
  base ++ ctaClause ++ pitchClause

/-- `priorityFilters`: platform and content type only. -/
def priorityFilters (sub : Submission) (a : AnalysisResult) : List (TrainRow → Bool) :=
  [fun r => r.platform == sub.platform] ++
  [fun r => r.content_type == sub.content_type.getD a.content_type]

def matchesAll (cs : List (TrainRow → Bool)) (r : TrainRow) : Bool :=
  cs.all fun c => c r

/-- `ORDER BY created_at DESC` — insertion sort, most recent first. -/
def insertDesc (r : TrainRow) : List TrainRow → List TrainRow
  | [] => [r]
  | x :: xs => if x.created_at < r.created_at then r :: x :: xs else x :: insertDesc r xs

def sortByCreatedDesc (l : List TrainRow) : List TrainRow :=
  l.foldr insertDesc []

/-- The retrieval ladder of the non-streaming handler (queries modelled as
filter-plus-LIMIT over the corpus). -/
def retrieveTraining (sub : Submission) (a : AnalysisResult) (corpus : List TrainRow) :
    List TrainRow :=
  let clauses := exactMatchClauses sub a
  let results := if clauses.length > 0 then (corpus.filter (matchesAll clauses)).take 5 else []
  if results.length = 0 && clauses.length > 0 then
    let pf := priorityFilters sub a
    let results2 := if pf.length > 0 then (corpus.filter (matchesAll pf)).take 5 else results
    if results2.length = 0 then (sortByCreatedDesc corpus).take 5 else results2
  else results

/-! ## Request validation and entry (`generatePostSchema.safeParse`)

`generatePostSchema = postFormSchema.omit({post_content, content_summary})`;
`postFormSchema` (`src/lib/schemas/post.ts`) requires `platform`,
`original_url`, `link_ownership_type` and a `tone_profile` array with
`.min(1, 'At least one tone profile is required')` whose entries carry a
weight in 0..100. The remaining optional request fields pass through. -/

structure RawBody where
  platform : Option Platform
  original_url : Option String
  link_ownership_type : Option LinkOwnership
  tone_profile : Option (List ToneWeight)
  content_type : Option ContentType
  target_audience : Option TargetAudience
  call_to_action_type : Option CtaType
  sales_pitch_strength : Option Nat
deriving DecidableEq, Repr

inductive ParseOutcome
  | ok (sub : Submission)
  | invalid (msg : String)
deriving DecidableEq, Repr

def toneEntryValid (t : ToneWeight) : Bool :=
  t.weight ≤ 100

def parseGeneratePost (b : RawBody) : ParseOutcome :=
  match b.platform, b.original_url, b.link_ownership_type, b.tone_profile with
  | some p, some u, some lo, some tp =>
    if tp.length < 1 then .invalid "At least one tone profile is required"
    else if !(tp.all toneEntryValid) then .invalid "Validation error"
    else .ok
      { platform := p, original_url := u, link_ownership_type := lo, tone_profile := tp,
        content_type := b.content_type, target_audience := b.target_audience,
        call_to_action_type := b.call_to_action_type,
        sales_pitch_strength := b.sales_pitch_strength }
  | _, _, _, _ => .invalid "Validation error"

/-- `submissionData`: replace a missing or empty validated tone profile with
the single-entry default `[{tone:'casual', weight:50}]`. -/
def applyDefaultTone (sub : Submission) : Submission :=
  if sub.tone_profile.length > 0 then sub
  else { sub with tone_profile := [⟨Tone.casual, 50⟩] }

inductive EntryResult
  | validationError (status : Nat)
  | started (sub : Submission)
deriving DecidableEq, Repr

/-- The entry of the generate operation after authentication and JSON
parsing: validation failure returns HTTP 400 before any pipeline work;
success starts the pipeline on `submissionData`. -/
def generateEntry (b : RawBody) : EntryResult :=
  match parseGeneratePost b with
  | .invalid _ => .validationError 400
  | .ok sub => .started (applyDefaultTone sub)

/-! ## Trace observations -/

def stageOf : Chunk → Option Stage
  | .progress st _ _ _ => some st
  | _ => none

def stageStatusOf : Chunk → Option (Stage × Status)
  | .progress st _ s _ => some (st, s)
  | _ => none

/-- The stages carried by the progress chunks of a trace, in emission order. -/
def stagesOf (tr : List Chunk) : List Stage :=
  tr.filterMap stageOf

/-- Collapse consecutive repetitions of the same stage. -/
def collapseStages : List Stage → List Stage
  | [] => []
  | [a] => [a]
  | a :: b :: rest =>
    if a = b then collapseStages (b :: rest) else a :: collapseStages (b :: rest)

/-- The canonical stage order of the pipeline. -/
def canonicalStages : List Stage :=
  [.scraping, .analyzing, .searching, .generating, .saving]

def isNotification : Chunk → Bool
  | .notification _ _ => true
  | _ => false

/-- A chunk that is an error-status progress event of the scraping stage. -/
def isScrapingError (c : Chunk) : Bool :=
  stageStatusOf c == some (Stage.scraping, Status.error)

/-! ## Sample data for concrete runs -/

def sampleSub : Submission :=
  { platform := .twitter
    original_url := "https://a.example/post"
    link_ownership_type := .own_content
    tone_profile := [⟨.witty, 60⟩, ⟨.direct, 40⟩]
    content_type := none
    target_audience := none
    call_to_action_type := none
    sales_pitch_strength := none }

def sampleAnalysis : AnalysisResult :=
  { content_summary := "A post about Lean"
    content_type := .tech_tutorial
    target_audience := .developers
    tone_profile := [⟨.witty, 55⟩, ⟨.direct, 45⟩]
    call_to_action_type := none
    sales_pitch_strength := 30 }

/-- Every external call succeeds. -/
def benignEnv : Env :=
  { scrape := .ok { markdown := some "hello world", html := none }
    analyze := fun _ => .ok (some sampleAnalysis)
    search := fun _ => .ok []
    gen := fun _ => (["Check this out!"], none) }

/-- The scrape call throws. -/
def scrapeFailEnv : Env :=
  { benignEnv with scrape := .error "fetch failed" }

/-- The scrape succeeds but yields neither markdown nor html. -/
def emptyContentEnv : Env :=
  { benignEnv with scrape := .ok { markdown := none, html := none } }

/-- A corpus row matching neither the exact nor the priority filters for
`sampleSub`. -/
def fallbackRow : TrainRow :=
  { post_content := "A news take"
    platform := .linkedin
    content_type := .news_article
    original_url := "https://b.example/article"
    content_summary := "An article"
    call_to_action_type := .learn_more
    sales_pitch_strength := 7
    tone_profile := [⟨.professional, 80⟩]
    link_ownership_type := .third_party_content
    target_audience := .marketers
    user_id := "u2"
    created_at := 4 }

def sampleTrainRow : TrainRow :=
  { post_content := "Great thread on proofs"
    platform := .twitter
    content_type := .tech_tutorial
    original_url := "https://a.example/post"
    content_summary := "A thread"
    call_to_action_type := .read_article
    sales_pitch_strength := 5
    tone_profile := [⟨.witty, 55⟩, ⟨.direct, 45⟩]
    link_ownership_type := .own_content
    target_audience := .developers
    user_id := "u1"
    created_at := 10 }

/-- An insert that always reports a unique-constraint violation (the
behaviour the storage layer would exhibit if the table declared the
constraint and the row were already present). -/
def alwaysConflictInsert : DbInsert :=
  fun _ _ => .error uniqueViolationError

/-- An insert that always fails with a non-uniqueness error (for example a
dropped connection). -/
def alwaysBrokenInsert : DbInsert :=
  fun _ _ => .error { code := some "08006", message := some "connection failure" }

/-- The `(user_id, original_url)` key of a persisted row. -/
def rowKey (r : GenerateRow) : String × String :=
  (r.user_id, r.original_url)

/-- A request body carrying an explicitly empty tone profile. -/
def bodyEmptyTone : RawBody :=
  { platform := some .twitter
    original_url := some "https://a.example/post"
    link_ownership_type := some .own_content
    tone_profile := some []
    content_type := none
    target_audience := none
    call_to_action_type := none
    sales_pitch_strength := none }

/-- A request body omitting the tone profile. -/
def bodyNoTone : RawBody :=
  { bodyEmptyTone with tone_profile := none }

/-- A fully valid request body; parses to `sampleSub`. -/
def validBody : RawBody :=
  { bodyEmptyTone with tone_profile := some [⟨.witty, 60⟩, ⟨.direct, 40⟩] }

end Blair

/-! ## Theorems -/

namespace Blair

theorem tonePairs_example :
    tonePairs [⟨.witty, 55⟩, ⟨.direct, 45⟩] [⟨.witty, 60⟩, ⟨.direct, 40⟩] =
      [(⟨.witty, 55⟩, ⟨.witty, 60⟩), (⟨.direct, 45⟩, ⟨.direct, 40⟩)] := by
  decide

theorem score_points_mono (t1 t2 : Nat) (h : t1 ≤ t2) (L : List (ToneWeight × ToneWeight)) :
    ((L.map fun p => if ((p.1.weight : Int) - (p.2.weight : Int)).natAbs ≤ t1 then 1 else 0).sum : Nat) ≤
      (L.map fun p => if ((p.1.weight : Int) - (p.2.weight : Int)).natAbs ≤ t2 then 1 else 0).sum := by
  induction L with
  | nil => simp
  | cons p L ih =>
    simp only [List.map_cons, List.sum_cons]
    refine Nat.add_le_add ?_ ih
    split_ifs with h1 h2 <;> omega

theorem score_points_le_length (t : Nat) (L : List (ToneWeight × ToneWeight)) :
    ((L.map fun p => if ((p.1.weight : Int) - (p.2.weight : Int)).natAbs ≤ t then 1 else 0).sum : Nat) ≤
      L.length := by
  induction L with
  | nil => simp
  | cons p L ih =>
    simp only [List.map_cons, List.sum_cons, List.length_cons]
    split_ifs <;> omega

theorem score_points_max (t : Nat) (L : List (ToneWeight × ToneWeight))
    (hall : ∀ p ∈ L, ((p.1.weight : Int) - (p.2.weight : Int)).natAbs ≤ t) :
    ((L.map fun p => if ((p.1.weight : Int) - (p.2.weight : Int)).natAbs ≤ t then 1 else 0).sum : Nat) =
      L.length := by
  induction L with
  | nil => simp
  | cons p L ih =>
    simp only [List.map_cons, List.sum_cons, List.length_cons]
    rw [if_pos (hall p (by simp)), ih fun q hq => hall q (by simp [hq])]
    omega

/-- C6: for every pair of tone profiles, the tone match score is monotonically
non-increasing as the tolerance threshold decreases, and two tone profiles in
which every shared tone has weights within the tolerance score the maximum
possible point total — one point per pair of matching tone entries. -/
theorem tone_score_monotone_max (t1 t2 : Nat) (rowP userP : List ToneWeight)
    (h : t1 ≤ t2) :
    toneMatchScore t1 rowP userP ≤ toneMatchScore t2 rowP userP ∧
    toneMatchScore t1 rowP userP ≤ (tonePairs rowP userP).length ∧
    ((∀ p ∈ tonePairs rowP userP, ((p.1.weight : Int) - (p.2.weight : Int)).natAbs ≤ t1) →
      toneMatchScore t1 rowP userP = (tonePairs rowP userP).length) :=
  ⟨score_points_mono t1 t2 h (tonePairs rowP userP),
   score_points_le_length t1 (tonePairs rowP userP),
   fun hall => score_points_max t1 (tonePairs rowP userP) hall⟩

/-- C6 witness: at threshold 5 versus 10 on the example profiles the score is
monotone and bounded by the number of shared tones. -/
theorem tone_score_monotone_max_witness :
    5 ≤ 10 ∧
    toneMatchScore 5 [⟨.witty, 55⟩, ⟨.direct, 45⟩] [⟨.witty, 60⟩, ⟨.direct, 40⟩] ≤
      toneMatchScore 10 [⟨.witty, 55⟩, ⟨.direct, 45⟩] [⟨.witty, 60⟩, ⟨.direct, 40⟩] ∧
    toneMatchScore 5 [⟨.witty, 55⟩, ⟨.direct, 45⟩] [⟨.witty, 60⟩, ⟨.direct, 40⟩] ≤
      (tonePairs [⟨.witty, 55⟩, ⟨.direct, 45⟩] [⟨.witty, 60⟩, ⟨.direct, 40⟩]).length :=
  ⟨by decide,
   (tone_score_monotone_max 5 10 [⟨.witty, 55⟩, ⟨.direct, 45⟩] [⟨.witty, 60⟩, ⟨.direct, 40⟩]
     (by decide)).1,
   (tone_score_monotone_max 5 10 [⟨.witty, 55⟩, ⟨.direct, 45⟩] [⟨.witty, 60⟩, ⟨.direct, 40⟩]
     (by decide)).2.1⟩

/-- C5: the intended relational semantics of `toneSimilaritySql` — one point
per shared tone whose weights differ by at most 10, rows ordered by
descending score — evaluated at the claim example: the corpus row with
profile witty 55 / direct 45 scores 2 against the query witty 60 / direct 40
and is returned. The SQL text itself cannot produce this (see the claim
record): it gives two column aliases to the one-column
`jsonb_array_elements` and compares its jsonb value to text, so Postgres
rejects the query and the searching stage throws. -/
theorem tone_score_intended_semantics_eval :
    toneMatchScore 10 [⟨.witty, 55⟩, ⟨.direct, 45⟩] [⟨.witty, 60⟩, ⟨.direct, 40⟩] = 2 ∧
    rankByToneScore [⟨.witty, 60⟩, ⟨.direct, 40⟩]
        [([⟨.witty, 55⟩, ⟨.direct, 45⟩], "example")] =
      [([⟨.witty, 55⟩, ⟨.direct, 45⟩], "example")] := by
  decide

theorem exactMatchClauses_len_pos (sub : Submission) (a : AnalysisResult) :
    0 < (exactMatchClauses sub a).length := by
  simp only [exactMatchClauses, List.length_append, List.length_cons, List.length_nil]
  omega

/-- C3: whenever the exact categorical filter matches zero corpus rows, the
handler retries with the relaxed priority filter (platform and content type
only) and, if that also matches zero rows, falls back to the five most
recently created corpus rows; in every case the generator receives the exact
matches, the relaxed matches, or the recency fallback (possibly empty). -/
theorem retrieval_fallback_ladder (sub : Submission) (a : AnalysisResult)
    (corpus : List TrainRow)
    (hempty : corpus.filter (matchesAll (exactMatchClauses sub a)) = []) :
    retrieveTraining sub a corpus =
      (if (corpus.filter (matchesAll (priorityFilters sub a))).take 5 = []
       then (sortByCreatedDesc corpus).take 5
       else (corpus.filter (matchesAll (priorityFilters sub a))).take 5) ∧
    (retrieveTraining sub a corpus =
        (corpus.filter (matchesAll (exactMatchClauses sub a))).take 5 ∨
     retrieveTraining sub a corpus =
        (corpus.filter (matchesAll (priorityFilters sub a))).take 5 ∨
     retrieveTraining sub a corpus = (sortByCreatedDesc corpus).take 5) := by
  have hpos := exactMatchClauses_len_pos sub a
  constructor
  · simp only [retrieveTraining]
    simp [hempty, hpos, List.length_eq_zero, priorityFilters]
  · simp only [retrieveTraining]
    split_ifs <;> simp_all [List.length_eq_zero, priorityFilters]

/-- C3 witness: a one-row corpus whose row matches neither the exact nor the
relaxed filters — the ladder bottoms out at the recency fallback and returns
the row. -/
theorem retrieval_fallback_ladder_witness :
    [fallbackRow].filter (matchesAll (exactMatchClauses sampleSub sampleAnalysis)) = [] ∧
    retrieveTraining sampleSub sampleAnalysis [fallbackRow] = [fallbackRow] := by
  refine ⟨by decide, ?_⟩
  have h := (retrieval_fallback_ladder sampleSub sampleAnalysis [fallbackRow] (by decide)).1
  rw [h]
  decide

/-- C8 counterexample: a generate request that supplies an empty tone profile,
and one that omits it, are both rejected with a 400 validation error before
the pipeline starts — the entry never runs the pipeline with the
`[casual 50]` default for such requests. -/
theorem tone_default_unreachable_counterexample :
    generateEntry bodyEmptyTone = .validationError 400 ∧
    generateEntry bodyNoTone = .validationError 400 := by
  decide

/-- C8 amended: `tone_profile` is a required, non-empty field of
`generatePostSchema`, so a request omitting it or supplying an empty list is
rejected with a validation error; for every request that passes validation
the tone profile is non-empty and the handler's `[casual 50]` default branch
is the identity — the pipeline always runs on the supplied profile. -/
theorem tone_profile_validation (b : RawBody) :
    ((b.tone_profile.getD []).length = 0 → generateEntry b = .validationError 400) ∧
    (∀ sub, parseGeneratePost b = .ok sub →
      0 < sub.tone_profile.length ∧ applyDefaultTone sub = sub ∧
      generateEntry b = .started sub) := by
  obtain ⟨p, u, lo, tp, ct, ta, cta, sp⟩ := b
  constructor
  · intro h
    cases p <;> cases u <;> cases lo <;> cases tp <;>
      simp_all [generateEntry, parseGeneratePost]
  · intro sub h
    cases p <;> cases u <;> cases lo <;> cases tp <;>
      simp only [parseGeneratePost] at h <;>
      try exact ParseOutcome.noConfusion h
    rename_i l
    split_ifs at h with h1 h2
    have hsub := (ParseOutcome.ok.injEq _ _).mp h
    subst hsub
    have hlen : 0 < l.length := by omega
    refine ⟨hlen, ?_, ?_⟩
    · simp [applyDefaultTone, hlen]
    · simp [generateEntry, parseGeneratePost, h1, h2, applyDefaultTone, hlen]

/-- C8 witness: the amended statement applied at the empty-profile body and
at a valid body parsing to `sampleSub`. -/
theorem tone_profile_validation_witness :
    (generateEntry bodyEmptyTone = .validationError 400) ∧
    (0 < sampleSub.tone_profile.length ∧ applyDefaultTone sampleSub = sampleSub ∧
      generateEntry validBody = .started sampleSub) :=
  ⟨(tone_profile_validation bodyEmptyTone).1 (by decide),
   (tone_profile_validation validBody).2 sampleSub (by decide)⟩

theorem getLast_append_notification (l1 l2 : List Chunk) (m : String) (lev : Level)
    (h : l2.getLast? = some (.notification m lev)) :
    (l1 ++ l2).getLast? = some (.notification m lev) := by
  have hne : l2 ≠ [] := by intro he; rw [he] at h; exact Option.noConfusion h
  rw [List.getLast?_append_of_ne_nil l1 hne, h]

theorem afterInsert_terminal (sub : Submission) (tbl : List GenerateRow) (text : String)
    (r : Except DbErr (List GenerateRow)) :
    ∃ m lev, ((afterInsert sub tbl text r).1).getLast? = some (.notification m lev) := by
  cases r with
  | ok tbl2 => exact ⟨"Post generation completed successfully!", .success, rfl⟩
  | error e =>
    by_cases h : isUniqueViolation e
    · exact ⟨"You have already added this URL", .error, by simp [afterInsert, h, conflictChunks]⟩
    · exact ⟨"Internal server error occurred", .error, by simp [afterInsert, h, outerCatchChunks]⟩

theorem afterGen_terminal (sub : Submission) (userId : String) (dbi : DbInsert)
    (tbl : List GenerateRow) (a : AnalysisResult) (g : List String × Option String) :
    ∃ m lev, ((afterGen sub userId dbi tbl a g).1).getLast? = some (.notification m lev) := by
  obtain ⟨deltas, merr⟩ := g
  cases merr with
  | some e =>
    exact ⟨"Internal server error occurred", .error,
      by simp only [afterGen]; exact getLast_append_notification _ _ _ _ rfl⟩
  | none =>
    by_cases h : (genLoop deltas "").2 = ""
    · exact ⟨"Failed to generate post content", .error,
        by simp only [afterGen, h, if_pos]; exact getLast_append_notification _ _ _ _ rfl⟩
    · obtain ⟨m, lev, hm⟩ := afterInsert_terminal sub tbl (genLoop deltas "").2
        (dbi tbl (insertDataOf sub a (genLoop deltas "").2 userId))
      refine ⟨m, lev, ?_⟩
      simp only [afterGen, h, if_neg, if_false]
      exact getLast_append_notification _ _ _ _ hm

theorem afterSearch_terminal (sub : Submission) (userId : String)
    (gen : String → List String × Option String) (dbi : DbInsert)
    (tbl : List GenerateRow) (a : AnalysisResult) (r : Except String (List TrainRow)) :
    ∃ m lev, ((afterSearch sub userId gen dbi tbl a r).1).getLast? = some (.notification m lev) := by
  cases r with
  | error e => exact ⟨"Internal server error occurred", .error, rfl⟩
  | ok rows =>
    obtain ⟨m, lev, hm⟩ := afterGen_terminal sub userId dbi tbl a
      (gen (genPrompt sub a (rows.map toExample)))
    refine ⟨m, lev, ?_⟩
    simp only [afterSearch]
    exact getLast_append_notification _ _ _ _ hm

theorem afterAnalysis_terminal (sub : Submission) (userId : String)
    (search : SearchQuery → Except String (List TrainRow))
    (gen : String → List String × Option String) (dbi : DbInsert)
    (tbl : List GenerateRow) (r : Except String (Option AnalysisResult)) :
    ∃ m lev, ((afterAnalysis sub userId search gen dbi tbl r).1).getLast? = some (.notification m lev) := by
  cases r with
  | error e => exact ⟨"Internal server error occurred", .error, rfl⟩
  | ok oa =>
    cases oa with
    | none => exact ⟨"Failed to analyze website content", .error, rfl⟩
    | some a =>
      by_cases h : a.content_summary = ""
      · exact ⟨"Failed to analyze website content", .error,
          by simp [afterAnalysis, h, analyzeFailChunks]⟩
      · obtain ⟨m, lev, hm⟩ := afterSearch_terminal sub userId gen dbi tbl a
          (search (buildSearchQuery sub a))
        refine ⟨m, lev, ?_⟩
        simp only [afterAnalysis, h, if_neg, if_false]
        exact getLast_append_notification _ _ _ _ hm

theorem afterScrape_terminal (sub : Submission) (userId : String) (env : Env) (dbi : DbInsert)
    (tbl : List GenerateRow) (r : Except String ScrapeResult) :
    ∃ m lev, ((afterScrape sub userId env dbi tbl r).1).getLast? = some (.notification m lev) := by
  cases r with
  | error e => exact ⟨"Internal server error occurred", .error, rfl⟩
  | ok s =>
    obtain ⟨m, lev, hm⟩ := afterAnalysis_terminal sub userId env.search env.gen dbi tbl
      (env.analyze (analyzePrompt (jsSlice (contentOf s) 100000)))
    refine ⟨m, lev, ?_⟩
    simp only [afterScrape]
    rw [← List.singleton_append]
    exact getLast_append_notification _ _ _ _ hm

/-- C10: only the first 100000 units of the scraped content influence the
run: two successful scrapes whose contents — markdown, falling back to html,
falling back to the empty string — agree on the first 100000 units produce
identical chunk traces and identical final tables, whatever the rest of the
environment does. -/
theorem slice_bound_trace_eq (sub : Submission) (userId : String) (env : Env)
    (dbi : DbInsert) (tbl : List GenerateRow) (s t : ScrapeResult)
    (h : jsSlice (contentOf s) 100000 = jsSlice (contentOf t) 100000) :
    executeStreaming sub userId { env with scrape := .ok s } dbi tbl =
      executeStreaming sub userId { env with scrape := .ok t } dbi tbl := by
  simp only [executeStreaming, afterScrape, h]

/-- C10 witness: markdown "hello" and html-fallback "hello" agree after
slicing, and the corresponding runs coincide. -/
theorem slice_bound_trace_eq_witness :
    jsSlice (contentOf { markdown := some "hello", html := none }) 100000 =
      jsSlice (contentOf { markdown := none, html := some "hello" }) 100000 ∧
    executeStreaming sampleSub "u1"
        { benignEnv with scrape := .ok { markdown := some "hello", html := none } }
        generatePostsInsert [] =
      executeStreaming sampleSub "u1"
        { benignEnv with scrape := .ok { markdown := none, html := some "hello" } }
        generatePostsInsert [] :=
  ⟨by decide,
   slice_bound_trace_eq sampleSub "u1" benignEnv generatePostsInsert []
     { markdown := some "hello", html := none }
     { markdown := none, html := some "hello" } (by decide)⟩

theorem genLoop_chunks_generating (ds : List String) (acc : String) :
    ∀ c ∈ (genLoop ds acc).1, ∃ m, c = .progress .generating m .loading none := by
  induction ds generalizing acc with
  | nil => intro c hc; simp [genLoop] at hc
  | cons d ds ih =>
    intro c hc
    simp only [genLoop] at hc
    rcases List.mem_append.mp hc with h | h
    · split at h
      · rw [List.mem_singleton] at h
        exact ⟨_, h⟩
      · simp at h
    · exact ih (acc ++ d) c h

theorem genLoop_stages_generating (ds : List String) (acc : String) :
    ∀ s ∈ stagesOf (genLoop ds acc).1, s = Stage.generating := by
  intro s hs
  rcases List.mem_filterMap.mp hs with ⟨c, hc, hsc⟩
  obtain ⟨m, rfl⟩ := genLoop_chunks_generating ds acc c hc
  simp only [stageOf, Option.some.injEq] at hsc
  exact hsc.symm

theorem afterInsert_no_scrape_error (sub : Submission) (tbl : List GenerateRow)
    (text : String) (r : Except DbErr (List GenerateRow)) :
    ∀ c ∈ (afterInsert sub tbl text r).1,
      stageStatusOf c ≠ some (Stage.scraping, Status.error) := by
  cases r with
  | ok tbl2 =>
    intro c hc
    simp only [afterInsert, List.mem_cons, List.mem_singleton] at hc
    rcases hc with rfl | rfl | rfl | hc
    · simp [stageStatusOf]
    · simp [stageStatusOf]
    · simp [stageStatusOf]
    · simp at hc
  | error e =>
    intro c hc
    by_cases h : isUniqueViolation e <;>
      simp only [afterInsert, h, if_pos, if_neg, if_true, if_false, Bool.false_eq_true,
        conflictChunks, outerCatchChunks, List.mem_cons, List.mem_singleton] at hc <;>
      rcases hc with rfl | rfl | hc <;> simp_all [stageStatusOf]

theorem afterGen_no_scrape_error (sub : Submission) (userId : String) (dbi : DbInsert)
    (tbl : List GenerateRow) (a : AnalysisResult) (g : List String × Option String) :
    ∀ c ∈ (afterGen sub userId dbi tbl a g).1,
      stageStatusOf c ≠ some (Stage.scraping, Status.error) := by
  obtain ⟨deltas, merr⟩ := g
  intro c hc
  have hloop := genLoop_chunks_generating deltas ""
  cases merr with
  | some e =>
    simp only [afterGen, List.mem_append] at hc
    rcases hc with h | h
    · obtain ⟨m, rfl⟩ := hloop c h; simp [stageStatusOf]
    · simp only [outerCatchChunks, List.mem_cons, List.mem_singleton] at h
      rcases h with rfl | rfl | h <;> simp_all [stageStatusOf]
  | none =>
    by_cases hmt : (genLoop deltas "").2 = ""
    · simp only [afterGen, hmt, if_pos, List.mem_append] at hc
      rcases hc with h | h
      · obtain ⟨m, rfl⟩ := hloop c h; simp [stageStatusOf]
      · simp only [genFailChunks, List.mem_cons, List.mem_singleton] at h
        rcases h with rfl | rfl | h <;> simp_all [stageStatusOf]
    · simp only [afterGen, hmt, if_neg, if_false, List.mem_append, List.mem_cons,
        List.mem_singleton] at hc
      rcases hc with (h | rfl | rfl | h) | h
      · obtain ⟨m, rfl⟩ := hloop c h; simp [stageStatusOf]
      · simp [stageStatusOf]
      · simp [stageStatusOf]
      · simp at h
      · exact afterInsert_no_scrape_error sub tbl _ _ c h

theorem afterSearch_no_scrape_error (sub : Submission) (userId : String)
    (gen : String → List String × Option String)
    (dbi : DbInsert) (tbl : List GenerateRow) (a : AnalysisResult)
    (r : Except String (List TrainRow)) :
    ∀ c ∈ (afterSearch sub userId gen dbi tbl a r).1,
      stageStatusOf c ≠ some (Stage.scraping, Status.error) := by
  cases r with
  | error e =>
    intro c hc
    simp only [outerCatchChunks, afterSearch, List.mem_cons, List.mem_singleton] at hc
    rcases hc with rfl | rfl | hc <;> simp_all [stageStatusOf]
  | ok rows =>
    intro c hc
    simp only [afterSearch, List.mem_append, List.mem_cons, List.mem_singleton] at hc
    rcases hc with (rfl | rfl | rfl | h) | h
    · simp [stageStatusOf]
    · simp [stageStatusOf]
    · simp [stageStatusOf]
    · simp at h
    · exact afterGen_no_scrape_error sub userId dbi tbl a _ c h

theorem afterAnalysis_no_scrape_error (sub : Submission) (userId : String)
    (search : SearchQuery → Except String (List TrainRow))
    (gen : String → List String × Option String)
    (dbi : DbInsert) (tbl : List GenerateRow) (r : Except String (Option AnalysisResult)) :
    ∀ c ∈ (afterAnalysis sub userId search gen dbi tbl r).1,
      stageStatusOf c ≠ some (Stage.scraping, Status.error) := by
  cases r with
  | error e =>
    intro c hc
    simp only [outerCatchChunks, afterAnalysis, List.mem_cons, List.mem_singleton] at hc
    rcases hc with rfl | rfl | hc <;> simp_all [stageStatusOf]
  | ok oa =>
    cases oa with
    | none =>
      intro c hc
      simp only [analyzeFailChunks, afterAnalysis, List.mem_cons, List.mem_singleton] at hc
      rcases hc with rfl | rfl | hc <;> simp_all [stageStatusOf]
    | some a =>
      intro c hc
      by_cases h : a.content_summary = ""
      · simp only [afterAnalysis, h, if_pos, analyzeFailChunks, List.mem_cons,
          List.mem_singleton] at hc
        rcases hc with rfl | rfl | hc <;> simp_all [stageStatusOf]
      · simp only [afterAnalysis, h, if_neg, if_false, List.mem_append, List.mem_cons,
          List.mem_singleton] at hc
        rcases hc with (rfl | rfl | rfl | hc) | hc
        · simp [stageStatusOf]
        · simp [stageStatusOf]
        · simp [stageStatusOf]
        · simp at hc
        · exact afterSearch_no_scrape_error sub userId gen dbi tbl a _ c hc

theorem afterScrape_no_scrape_error (sub : Submission) (userId : String) (env : Env)
    (dbi : DbInsert) (tbl : List GenerateRow) (r : Except String ScrapeResult) :
    ∀ c ∈ (afterScrape sub userId env dbi tbl r).1,
      stageStatusOf c ≠ some (Stage.scraping, Status.error) := by
  cases r with
  | error e =>
    intro c hc
    simp only [outerCatchChunks, afterScrape, List.mem_cons, List.mem_singleton] at hc
    rcases hc with rfl | rfl | hc <;> simp_all [stageStatusOf]
  | ok s =>
    intro c hc
    simp only [afterScrape, List.mem_cons] at hc
    rcases hc with rfl | hc
    · simp [stageStatusOf]
    · exact afterAnalysis_no_scrape_error sub userId env.search env.gen dbi tbl _ c hc

/-- No chunk of any streaming run is an error tagged with the scraping stage:
the handler has no fetch-stage failure path at all. -/
theorem executeStreaming_no_scrape_error (sub : Submission) (userId : String) (env : Env)
    (dbi : DbInsert) (tbl : List GenerateRow) :
    ∀ c ∈ (executeStreaming sub userId env dbi tbl).1,
      stageStatusOf c ≠ some (Stage.scraping, Status.error) := by
  intro c hc
  simp only [executeStreaming, initChunks, List.mem_append, List.mem_cons,
    List.mem_singleton] at hc
  rcases hc with (rfl | rfl | hc) | hc
  · simp [stageStatusOf]
  · simp [stageStatusOf]
  · simp at hc
  · exact afterScrape_no_scrape_error sub userId env dbi tbl env.scrape c hc

theorem jsSlice_empty : jsSlice "" 100000 = "" := rfl

/-- C7 counterexample: a successful scrape that returns neither markdown nor
html (empty content). The run emits no fetch/scraping-stage error, still
invokes the analyzer (its analysis record is streamed), and ends in success —
refuting "empty content ⟹ Failed(fetch), analyzer not invoked". (A list is a
prefix of `canonicalStages` exactly when it equals the take of its length.) -/
theorem empty_content_claim_false :
    ((executeStreaming sampleSub "u1" emptyContentEnv generatePostsInsert []).1.filter
        isScrapingError) = [] ∧
    Chunk.contentAnalysis sampleAnalysis ∈
      (executeStreaming sampleSub "u1" emptyContentEnv generatePostsInsert []).1 ∧
    (executeStreaming sampleSub "u1" emptyContentEnv generatePostsInsert []).1.getLast? =
      some (.notification "Post generation completed successfully!" .success) := by
  decide

/-- C7 amended: the streaming handler performs no emptiness check on fetched
content. A successful scrape with empty content advances the run to the
analyze stage — the analyzer is invoked on the (sliced) empty string — and no
run ever emits a fetch/scraping-stage error chunk. -/
theorem empty_content_reaches_analyzer (sub : Submission) (userId : String) (env : Env)
    (dbi : DbInsert) (tbl : List GenerateRow) (s : ScrapeResult)
    (hs : env.scrape = .ok s) (hempty : contentOf s = "") :
    (executeStreaming sub userId env dbi tbl).1 =
      initChunks sub ++
        Chunk.progress .analyzing "Analyzing scraped content..." .loading none ::
          (afterAnalysis sub userId env.search env.gen dbi tbl
            (env.analyze (analyzePrompt ""))).1 ∧
    Chunk.progress .analyzing "Analyzing scraped content..." .loading none ∈
      (executeStreaming sub userId env dbi tbl).1 ∧
    ∀ c ∈ (executeStreaming sub userId env dbi tbl).1,
      stageStatusOf c ≠ some (Stage.scraping, Status.error) := by
  have htrace : (executeStreaming sub userId env dbi tbl).1 =
      initChunks sub ++
        Chunk.progress .analyzing "Analyzing scraped content..." .loading none ::
          (afterAnalysis sub userId env.search env.gen dbi tbl
            (env.analyze (analyzePrompt ""))).1 := by
    simp [executeStreaming, afterScrape, hs, hempty, jsSlice_empty]
  refine ⟨htrace, ?_, executeStreaming_no_scrape_error sub userId env dbi tbl⟩
  rw [htrace]
  simp

/-- C7 witness: the amended statement applied at the concrete empty-content
environment. -/
theorem empty_content_reaches_analyzer_witness :
    Chunk.progress .analyzing "Analyzing scraped content..." .loading none ∈
      (executeStreaming sampleSub "u1" emptyContentEnv generatePostsInsert []).1 :=
  (empty_content_reaches_analyzer sampleSub "u1" emptyContentEnv generatePostsInsert []
    { markdown := none, html := none } rfl rfl).2.1

theorem collapse_gen_block (G : List Stage) (hG : ∀ s ∈ G, s = Stage.generating)
    (rest : List Stage) :
    collapseStages (Stage.generating :: (G ++ rest)) =
      collapseStages (Stage.generating :: rest) := by
  induction G with
  | nil => rfl
  | cons x G ih =>
    have hx : x = Stage.generating := hG x (by simp)
    subst hx
    rw [List.cons_append,
      show collapseStages (Stage.generating :: Stage.generating :: (G ++ rest)) =
        collapseStages (Stage.generating :: (G ++ rest)) from by
          simp [collapseStages]]
    exact ih fun s hs => hG s (by simp [hs])

theorem collapse_head6 (T : List Stage) :
    collapseStages (Stage.scraping :: Stage.scraping :: Stage.analyzing :: Stage.analyzing ::
        Stage.searching :: Stage.searching :: Stage.generating :: T) =
      Stage.scraping :: Stage.analyzing :: Stage.searching ::
        collapseStages (Stage.generating :: T) := by
  simp [collapseStages]

theorem afterInsert_stages (sub : Submission) (tbl : List GenerateRow) (text : String)
    (r : Except DbErr (List GenerateRow)) :
    stagesOf (afterInsert sub tbl text r).1 = [Stage.saving] := by
  cases r with
  | ok tbl2 => rfl
  | error e =>
    by_cases h : isUniqueViolation e <;>
      simp [afterInsert, h, conflictChunks, outerCatchChunks, stagesOf, stageOf]

/-- C2 counterexample: a run whose scrape call throws. The collapsed stage
sequence of the emitted progress events is `[scraping, saving]` — the
unexpected-exception handler tags the failure with the saving stage even
though the fetch stage was executing — which is not a prefix of the canonical
stage order (a list is a prefix of `canonicalStages` exactly when it equals
the take of its own length), so stages are skipped at failure. -/
theorem stage_sequence_claim_false :
    collapseStages
        (stagesOf (executeStreaming sampleSub "u1" scrapeFailEnv generatePostsInsert []).1) =
      [Stage.scraping, Stage.saving] ∧
    collapseStages
        (stagesOf (executeStreaming sampleSub "u1" scrapeFailEnv generatePostsInsert []).1) ≠
      canonicalStages.take
        (collapseStages
          (stagesOf (executeStreaming sampleSub "u1" scrapeFailEnv
            generatePostsInsert []).1)).length := by
  decide

/-- C2 amended: for every run, the collapsed sequence of stages carried by
the emitted progress events is either a non-empty prefix of
`scraping, analyzing, searching, generating, saving`, or such a prefix of
length at most 4 followed directly by a saving-tagged error: failures the
handler detects in-stage are tagged with the executing stage, but an
unexpected exception at any stage is reported by the outer catch with stage
`saving`, skipping the stages in between. -/
theorem stage_sequence_amended (sub : Submission) (userId : String) (env : Env)
    (dbi : DbInsert) (tbl : List GenerateRow) :
    ∃ k, (1 ≤ k ∧ k ≤ 5 ∧
        collapseStages (stagesOf (executeStreaming sub userId env dbi tbl).1) =
          canonicalStages.take k) ∨
      (1 ≤ k ∧ k ≤ 4 ∧
        collapseStages (stagesOf (executeStreaming sub userId env dbi tbl).1) =
          canonicalStages.take k ++ [Stage.saving]) := by
  rcases hscrape : env.scrape with e | s
  · refine ⟨1, .inr ⟨le_refl 1, by omega, ?_⟩⟩
    simp [executeStreaming, afterScrape, hscrape, initChunks, outerCatchChunks,
      stagesOf, stageOf, collapseStages, canonicalStages]
  · rcases hana : env.analyze (analyzePrompt (jsSlice (contentOf s) 100000)) with e | oa
    · refine ⟨2, .inr ⟨by omega, by omega, ?_⟩⟩
      simp [executeStreaming, afterScrape, afterAnalysis, hscrape, hana, initChunks,
        outerCatchChunks, stagesOf, stageOf, collapseStages, canonicalStages]
    · rcases oa with _ | a
      · refine ⟨2, .inl ⟨by omega, by omega, ?_⟩⟩
        simp [executeStreaming, afterScrape, afterAnalysis, hscrape, hana, initChunks,
          analyzeFailChunks, stagesOf, stageOf, collapseStages, canonicalStages]
      · by_cases hsum : a.content_summary = ""
        · refine ⟨2, .inl ⟨by omega, by omega, ?_⟩⟩
          simp [executeStreaming, afterScrape, afterAnalysis, hscrape, hana, hsum,
            initChunks, analyzeFailChunks, stagesOf, stageOf, collapseStages,
            canonicalStages]
        · rcases hsearch : env.search (buildSearchQuery sub a) with e | rows
          · refine ⟨3, .inr ⟨by omega, by omega, ?_⟩⟩
            simp [executeStreaming, afterScrape, afterAnalysis, afterSearch, hscrape,
              hana, hsum, hsearch, initChunks, outerCatchChunks, stagesOf, stageOf,
              collapseStages, canonicalStages]
          · rcases hgen : env.gen (genPrompt sub a (rows.map toExample)) with ⟨deltas, merr⟩
            have hG := genLoop_stages_generating deltas ""
            simp only [stagesOf] at hG
            rcases merr with _ | e
            · by_cases hmt : (genLoop deltas "").2 = ""
              · refine ⟨4, .inl ⟨by omega, by omega, ?_⟩⟩
                simp only [executeStreaming, afterScrape, afterAnalysis, afterSearch,
                  afterGen, hscrape, hana, hsum, hsearch, hgen, hmt, if_pos, if_neg,
                  if_true, if_false, ite_true, ite_false, eq_self_iff_true, not_false_iff,
                  initChunks, genFailChunks, stagesOf, stageOf,
                  List.filterMap_append, List.filterMap_cons, List.filterMap_nil,
                  List.cons_append, List.nil_append, List.append_assoc]
                rw [collapse_head6, collapse_gen_block _ hG]
                simp [collapseStages, canonicalStages]
              · refine ⟨5, .inl ⟨by omega, by omega, ?_⟩⟩
                have hins := afterInsert_stages sub tbl (genLoop deltas "").2
                  (dbi tbl (insertDataOf sub a (genLoop deltas "").2 userId))
                simp only [executeStreaming, afterScrape, afterAnalysis, afterSearch,
                  afterGen, hscrape, hana, hsum, hsearch, hgen, hmt, if_pos, if_neg,
                  if_true, if_false, ite_true, ite_false, eq_self_iff_true, not_false_iff,
                  initChunks, stagesOf, stageOf,
                  List.filterMap_append, List.filterMap_cons, List.filterMap_nil,
                  List.cons_append, List.nil_append, List.append_assoc] at hins ⊢
                rw [hins, collapse_head6, collapse_gen_block _ hG]
                simp [collapseStages, canonicalStages]
            · refine ⟨4, .inr ⟨by omega, by omega, ?_⟩⟩
              simp only [executeStreaming, afterScrape, afterAnalysis, afterSearch,
                afterGen, hscrape, hana, hsum, hsearch, hgen, if_pos, if_neg,
                if_true, if_false, ite_true, ite_false, eq_self_iff_true, not_false_iff,
                initChunks,
                outerCatchChunks, stagesOf, stageOf, List.filterMap_append,
                List.filterMap_cons, List.filterMap_nil, List.cons_append,
                List.nil_append, List.append_assoc]
              rw [collapse_head6, collapse_gen_block _ hG]
              simp [collapseStages, canonicalStages]

/-- C4: the persistence error handler. Under the hypotheses that the run
reaches the insert and the insert throws `e`, a uniqueness violation
(code 23505 or a message mentioning "unique constraint") ends the run with
the conflict progress event (stage saving, status error, "URL already exists
for this user") and the conflict notification, leaving the table unchanged
and retrying nothing; any other persistence error is re-thrown and surfaces
as the outer-catch saving-stage failure instead. -/
theorem persist_unique_violation_handler (sub : Submission) (userId : String) (env : Env)
    (dbi : DbInsert) (tbl : List GenerateRow) (s : ScrapeResult) (a : AnalysisResult)
    (rows : List TrainRow) (deltas : List String) (e : DbErr)
    (hs : env.scrape = .ok s)
    (hana : env.analyze (analyzePrompt (jsSlice (contentOf s) 100000)) = .ok (some a))
    (hsum : a.content_summary ≠ "")
    (hsearch : env.search (buildSearchQuery sub a) = .ok rows)
    (hgen : env.gen (genPrompt sub a (rows.map toExample)) = (deltas, none))
    (hmt : (genLoop deltas "").2 ≠ "")
    (hins : dbi tbl (insertDataOf sub a (genLoop deltas "").2 userId) = .error e) :
    ∃ pre,
      (executeStreaming sub userId env dbi tbl).1 =
        pre ++ (if isUniqueViolation e then conflictChunks else outerCatchChunks) ∧
      (executeStreaming sub userId env dbi tbl).2 = tbl := by
  refine ⟨initChunks sub ++
      Chunk.progress .analyzing "Analyzing scraped content..." .loading none ::
      ([Chunk.progress .analyzing "Content analysis completed" .success none,
        Chunk.contentAnalysis a,
        Chunk.progress .searching "Searching for tone-similar posts..." .loading none] ++
       ([Chunk.progress .searching
           ("Found " ++ toString rows.length ++ " tone-similar posts") .success none,
         Chunk.trainingPosts rows.length (rows.map toExample),
         Chunk.progress .generating "Generating post content..." .loading none] ++
        ((genLoop deltas "").1 ++
         [Chunk.progress .generating "Post content generated successfully" .success none,
          Chunk.progress .saving "Saving post to database..." .loading none]))), ?_, ?_⟩ <;>
    by_cases hu : isUniqueViolation e <;>
      simp [executeStreaming, afterScrape, afterAnalysis, afterSearch, afterGen,
        afterInsert, hs, hana, hsum, hsearch, hgen, hmt, hins, hu]

/-- C4 witness: the theorem applied to a run whose insert reports the
Postgres unique-violation error — all reachability hypotheses hold at this
concrete environment and the table is left unchanged. -/
theorem persist_unique_violation_handler_witness :
    isUniqueViolation uniqueViolationError = true ∧
    (executeStreaming sampleSub "u1" benignEnv alwaysConflictInsert []).2 = [] :=
  ⟨by decide,
   (persist_unique_violation_handler sampleSub "u1" benignEnv alwaysConflictInsert []
     { markdown := some "hello world", html := none } sampleAnalysis [] ["Check this out!"]
     uniqueViolationError rfl rfl (by decide) rfl rfl (by decide) rfl).choose_spec.2⟩

/-- C1: the `generate_posts` table declares no unique constraint on
`(user_id, original_url)` and the streaming handler removed the pre-insert
existence check, so two successive runs for the same owner and URL both reach
the success notification and the table ends up with two rows carrying the
same `(user_id, original_url)` key. The `training_posts` table, which does
declare the constraint, rejects such a duplicate with exactly the error the
handler's conflict branch expects — showing the intended conflict path is
dead for `generate_posts`. -/
theorem generate_posts_duplicate_rows :
    ((executeStreaming sampleSub "u1" benignEnv generatePostsInsert []).1.getLast? =
      some (.notification "Post generation completed successfully!" .success)) ∧
    ((executeStreaming sampleSub "u1" benignEnv generatePostsInsert
        (executeStreaming sampleSub "u1" benignEnv generatePostsInsert []).2).1.getLast? =
      some (.notification "Post generation completed successfully!" .success)) ∧
    ((executeStreaming sampleSub "u1" benignEnv generatePostsInsert
        (executeStreaming sampleSub "u1" benignEnv generatePostsInsert []).2).2.map rowKey =
      [("u1", "https://a.example/post"), ("u1", "https://a.example/post")]) ∧
    pgInsert trainingPostsUniques [sampleTrainRow] sampleTrainRow =
      .error uniqueViolationError ∧
    isUniqueViolation uniqueViolationError = true :=
  ⟨by decide, by decide, by decide, rfl, by decide⟩

/-- C9: every run of the streaming generate operation ends with a terminal
notification on the progress channel — on every code path, including
unexpected exceptions, the last chunk written is a notification (success,
stage failure, conflict, or internal error). -/
theorem always_terminal_notification (sub : Submission) (userId : String) (env : Env)
    (dbi : DbInsert) (tbl : List GenerateRow) :
    ∃ m lev, ((executeStreaming sub userId env dbi tbl).1).getLast? =
      some (.notification m lev) := by
  obtain ⟨m, lev, hm⟩ := afterScrape_terminal sub userId env dbi tbl env.scrape
  refine ⟨m, lev, ?_⟩
  simp only [executeStreaming]
  exact getLast_append_notification _ _ _ _ hm

end Blair
